import Mathlib

/-!
Verification of the SafeRoute client (src/App.tsx) against its specification.

The embedding models:
- the data model (`LatLng`, `RouteResult`, the JSON values exchanged on the wire);
- the request builder (the literal object sent by `getRoute`, lines 44–54);
- the fetch lifecycle: component state `(result, loading, err)` (lines 34–36),
  the submission prologue (lines 39–41) and the outcome handler (lines 43–67)
  of `getRoute`, with the environment's response supplied as a `FetchOutcome`;
- the presenter: `initialRegionFor` (lines 70–81) and the success-view
  derivation of polylines and markers (lines 141–165).

Numbers are modelled as `Rat` (the claims do no float arithmetic beyond
carrying values verbatim). JSON parsing (`res.json()`) is the platform's,
external to the repository, so a response carries its parse result
(`Except String Json`, the error case holding the thrown exception's message).
-/

/-- A geographic coordinate, as in `type LatLng` (App.tsx line 15). -/
structure LatLng where
  latitude : Rat
  longitude : Rat
deriving DecidableEq, Repr

/-- The result shape, as in `interface RouteResult` (App.tsx lines 17–23). -/
structure RouteResult where
  shortest_distance_m : Rat
  safest_distance_m : Rat
  safest_score : Rat
  shortest_route : List LatLng
  safest_route : List LatLng
deriving DecidableEq, Repr

/-- Structured data (a parsed JSON value), the possible shapes of a request or
response body. -/
inductive Json where
  | null : Json
  | bool (b : Bool) : Json
  | num (q : Rat) : Json
  | str (s : String) : Json
  | arr (xs : List Json) : Json
  | obj (fields : List (String × Json)) : Json
deriving Repr

/-- Property lookup on a JSON object field list (first binding wins, as in a
JS object literal / parsed JSON object). -/
def jLookup (fields : List (String × Json)) (k : String) : Option Json :=
  (fields.find? (fun p => p.1 == k)).map (fun p => p.2)

/-- Property access `j[k]` on a parsed JSON value: a field of an object,
`undefined` (none) otherwise. -/
def jGet (j : Json) (k : String) : Option Json :=
  match j with
  | .obj fs => jLookup fs k
  | _ => none

/-- Numeric view of a JSON value. -/
def jNum : Json → Option Rat
  | .num q => some q
  | _ => none

/-- Read a numeric field of a JSON value. -/
def numField (j : Json) (k : String) : Option Rat :=
  (jGet j k).bind jNum

/-- Decode one coordinate object into a `LatLng`. -/
def decodeLatLng (j : Json) : Option LatLng :=
  match numField j "latitude", numField j "longitude" with
  | some la, some lo => some ⟨la, lo⟩
  | _, _ => none

/-- Decode a JSON array into a coordinate polyline. -/
def decodeRoute : Json → Option (List LatLng)
  | .arr xs => xs.mapM decodeLatLng
  | _ => none

/-- Read a polyline field of a JSON value. -/
def routeField (j : Json) (k : String) : Option (List LatLng) :=
  (jGet j k).bind decodeRoute

/-- Modelled from the spec: the validating decoder of §3/§4.2 (`DecodeError`
when any of the five required `RouteResult` fields is missing or ill-typed).
The source performs no such validation (it casts the parsed value, App.tsx
line 61); this definition states what "contains the required RouteResult
fields" means, per the spec's words. -/
def decodeRouteResult (j : Json) : Option RouteResult :=
  match numField j "shortest_distance_m", numField j "safest_distance_m",
        numField j "safest_score", routeField j "shortest_route",
        routeField j "safest_route" with
  | some a, some b, some c, some d, some e => some ⟨a, b, c, d, e⟩
  | _, _, _, _, _ => none

/-- The request body built by `getRoute` (App.tsx lines 47–53): the literal
object `{ origin, destination: dest, alpha: 1.5, beta: 0.7, use_weather: false }`. -/
def requestBody (origin dest : String) : List (String × Json) :=
  [("origin", Json.str origin),
   ("destination", Json.str dest),
   ("alpha", Json.num (1.5 : Rat)),
   ("beta", Json.num (0.7 : Rat)),
   ("use_weather", Json.bool false)]

/-- The JSON value serialized as the POST body. -/
def requestJson (origin dest : String) : Json :=
  Json.obj (requestBody origin dest)

/-- An HTTP response as seen by `getRoute`: status, status text, raw body
text, and the platform's parse of the body (`res.json()`), whose error case
carries the thrown exception's message. -/
structure HttpResponse where
  status : Nat
  statusText : String
  bodyText : String
  parsed : Except String Json

/-- The `res.ok` flag of fetch: status in the 2xx success range. -/
def HttpResponse.ok (r : HttpResponse) : Bool :=
  200 ≤ r.status && r.status ≤ 299

/-- What the environment hands the `await fetch` call: either the promise
rejects (transport failure; the exception may or may not carry a message)
or a response arrives. -/
inductive FetchOutcome where
  | transportError (msg : Option String) : FetchOutcome
  | response (r : HttpResponse) : FetchOutcome

/-- The component state: `result`, `loading`, `err` (App.tsx lines 34–36).
The stored result is the raw parsed JSON value, exactly what
`(await res.json()) as RouteResult` stores — the cast validates nothing. -/
structure AppState where
  result : Option Json
  loading : Bool
  err : Option String
deriving Repr

/-- The initial component state: `useState(null)`, `useState(false)`,
`useState(null)`. -/
def initState : AppState :=
  { result := none, loading := false, err := none }

/-- The submission prologue of `getRoute` (App.tsx lines 39–41):
`setErr(null); setResult(null); setLoading(true)` before the call begins. -/
def submitState (_s : AppState) : AppState :=
  { result := none, loading := true, err := none }

/-- The message of the `ProtocolError` thrown on a non-ok response
(App.tsx line 58): `` `${res.status} ${res.statusText} – ${txt}` ``. -/
def protocolMessage (r : HttpResponse) : String :=
  toString r.status ++ " " ++ r.statusText ++ " – " ++ r.bodyText

/-- The catch handler's message selection (App.tsx line 64):
`e?.message || "Network error"` — a missing or empty message falls back to
the fixed text. -/
def messageOrDefault : Option String → String
  | some s => if s = "" then "Network error" else s
  | none => "Network error"

/-- The continuation of `getRoute` after `await fetch` resolves
(App.tsx lines 56–67), run atomically (no suspension point separates
`setResult`/`setErr` from the `finally` branch's `setLoading(false)`):
- promise rejection → catch: store the (defaulted) message, clear loading;
- `!res.ok` → read the body text, throw the protocol message, caught below;
- `res.json()` fails → its exception is caught below;
- otherwise → store the parsed value verbatim, clear loading. -/
def resolve (o : FetchOutcome) (s : AppState) : AppState :=
  match o with
  | .transportError m =>
      { s with err := some (messageOrDefault m), loading := false }
  | .response r =>
      if r.ok then
        match r.parsed with
        | .ok j => { s with result := some j, loading := false }
        | .error m =>
            { s with err := some (messageOrDefault (some m)), loading := false }
      else
        { s with err := some (messageOrDefault (some (protocolMessage r))),
                 loading := false }

/-- A full non-overlapping run of `getRoute` (App.tsx lines 38–68): the
submission prologue, then the outcome handler. -/
def getRoute (o : FetchOutcome) (s : AppState) : AppState :=
  resolve o (submitState s)

/-- Two overlapping runs on the shared state: A is submitted, then B is
submitted while A is in flight, then the first argument's outcome resolves,
then the second argument's. Each continuation writes to the shared state
unconditionally, in resolution order (the code has no generation counter). -/
def overlappedRun (oFirst oSecond : FetchOutcome) (s : AppState) : AppState :=
  resolve oSecond (resolve oFirst (submitState (submitState s)))

/-- A map region, as in react-native-maps' `Region` used by
`initialRegionFor`. -/
structure Region where
  latitude : Rat
  longitude : Rat
  latitudeDelta : Rat
  longitudeDelta : Rat
deriving DecidableEq, Repr

/-- The map framing function `initialRegionFor` (App.tsx lines 70–81):
center at `coords[0]` when
`coords && coords.length` is truthy, else the fixed default
`{latitude: 33.64, longitude: -117.84}`; deltas are fixed at 0.05. -/
def initialRegionFor (coords : Option (List LatLng)) : Region :=
  let center : LatLng :=
    match coords with
    | some (c :: _) => c
    | _ => ⟨(33.64 : Rat), (-117.84 : Rat)⟩
  { latitude := center.latitude, longitude := center.longitude,
    latitudeDelta := (0.05 : Rat), longitudeDelta := (0.05 : Rat) }

/-- The display primitives the success branch of the render derives from a
result (App.tsx lines 141–165): the two polylines, the two marker
coordinates, and the map region. A JS index `arr[0]` / `arr[arr.length - 1]`
on an empty array is `undefined`, modelled as `none`. -/
structure SuccessView where
  shortestPolyline : List LatLng
  safestPolyline : List LatLng
  originMarker : Option LatLng
  destMarker : Option LatLng
  region : Region
deriving DecidableEq, Repr

/-- The success-view derivation (App.tsx lines 141–165): polylines verbatim,
origin marker at `shortest_route[0]`, destination marker at
`shortest_route[shortest_route.length - 1]`, region from
`initialRegionFor(result.shortest_route)`. -/
def renderSuccess (r : RouteResult) : SuccessView :=
  { shortestPolyline := r.shortest_route
    safestPolyline := r.safest_route
    originMarker := r.shortest_route.head?
    destMarker := r.shortest_route.getLast?
    region := initialRegionFor (some r.shortest_route) }

/-- Whether the render shows the success section (`{result && (...)}`,
App.tsx line 127): it does exactly when a result is stored. -/
def showsSuccessSection (s : AppState) : Bool :=
  s.result.isSome

/-- One observable transition of the component, on the shared state paired
with the number of in-flight calls. A submission of `getRoute` is possible
at any time — `disabled={loading}` on the button (App.tsx line 109) is a UI
affordance, not a logical guard, so overlapping submissions are not
prevented by the code — and whenever a call is in flight, its post-`await`
continuation may run, atomically. -/
inductive Step : AppState × Nat → AppState × Nat → Prop
  | submit (s : AppState) (n : Nat) : Step (s, n) (submitState s, n + 1)
  | settle (s : AppState) (n : Nat) (o : FetchOutcome) :
      Step (s, n + 1) (resolve o s, n)

/-- A configuration is reachable when a finite sequence of steps leads to
it from the initial state with no call in flight. -/
def Reachable (c : AppState × Nat) : Prop :=
  Relation.ReflTransGen Step (initState, 0) c

/-- The restriction of the transitions to runs without overlap: a submission
occurs only while not Loading (the trigger-disable is respected, so at most
one call is ever in flight), and the unique in-flight call's continuation
runs while Loading. -/
inductive GuardedStep : AppState → AppState → Prop
  | submit (s : AppState) (h : s.loading = false) :
      GuardedStep s (submitState s)
  | settle (s : AppState) (o : FetchOutcome) (h : s.loading = true) :
      GuardedStep s (resolve o s)

/-- A state is reachable without overlap when a finite sequence of guarded
steps leads to it from the initial state. -/
def ReachableNoOverlap (s : AppState) : Prop :=
  Relation.ReflTransGen GuardedStep initState s

/-- The four FetchState variants of the spec, read off the state triple:
Idle, Loading, Success(result), Failure(message). -/
def isVariant (s : AppState) : Prop :=
  s = { result := none, loading := false, err := none } ∨
  s = { result := none, loading := true, err := none } ∨
  (∃ j, s = { result := some j, loading := false, err := none }) ∨
  (∃ m, s = { result := none, loading := false, err := some m })

/-- Substring containment on strings, at the level of their character data. -/
def strContains (s t : String) : Prop :=
  t.data <:+: s.data

/-- A valid response body from the spec's literal example in §6 (truncated to
two and one points respectively). -/
def sampleResult : Json :=
  Json.obj
    [("shortest_distance_m", Json.num (5200 : Rat)),
     ("safest_distance_m", Json.num (5800 : Rat)),
     ("safest_score", Json.num (87 : Rat)),
     ("shortest_route", Json.arr
       [Json.obj [("latitude", Json.num (33.6405 : Rat)),
                  ("longitude", Json.num (-117.8443 : Rat))],
        Json.obj [("latitude", Json.num (33.65 : Rat)),
                  ("longitude", Json.num (-117.8 : Rat))]]),
     ("safest_route", Json.arr
       [Json.obj [("latitude", Json.num (33.6405 : Rat)),
                  ("longitude", Json.num (-117.8443 : Rat))]])]

/-- The `RouteResult` the validating decoder extracts from `sampleResult`. -/
def sampleRR : RouteResult :=
  { shortest_distance_m := (5200 : Rat)
    safest_distance_m := (5800 : Rat)
    safest_score := (87 : Rat)
    shortest_route := [⟨(33.6405 : Rat), (-117.8443 : Rat)⟩,
                       ⟨(33.65 : Rat), (-117.8 : Rat)⟩]
    safest_route := [⟨(33.6405 : Rat), (-117.8443 : Rat)⟩] }

/-- A 500 response with the diagnostic body of the spec's §8 scenario. -/
def resp500 : HttpResponse :=
  { status := 500, statusText := "Internal Server Error",
    bodyText := "internal error", parsed := Except.error "" }

/-- A 200 response whose body is an object missing every required field. -/
def respEmptyObj : HttpResponse :=
  { status := 200, statusText := "OK", bodyText := "\x7b\x7d",
    parsed := Except.ok (Json.obj []) }

/-- A 200 response carrying the valid sample body. -/
def resp200 : HttpResponse :=
  { status := 200, statusText := "OK", bodyText := "",
    parsed := Except.ok sampleResult }

/-- A structurally valid response body whose `shortest_route` is empty
(the §7 defect condition). -/
def emptyRouteJson : Json :=
  Json.obj
    [("shortest_distance_m", Json.num (5200 : Rat)),
     ("safest_distance_m", Json.num (5800 : Rat)),
     ("safest_score", Json.num (87 : Rat)),
     ("shortest_route", Json.arr []),
     ("safest_route", Json.arr [])]

/-- The `RouteResult` decoded from `emptyRouteJson`. -/
def emptyRouteResult : RouteResult :=
  { shortest_distance_m := (5200 : Rat), safest_distance_m := (5800 : Rat),
    safest_score := (87 : Rat), shortest_route := [], safest_route := [] }

/-- The catch handler never stores an empty message: both branches of
`e?.message || "Network error"` are non-empty. -/
theorem messageOrDefault_ne_empty (m : Option String) :
    messageOrDefault m ≠ "" := by
  cases m with
  | none => simp [messageOrDefault]
  | some s =>
    by_cases h : s = "" <;> simp [messageOrDefault, h]

/-- C4: for every pair of origin and destination texts, the request body is a
JSON object with exactly the five keys `origin`, `destination`, `alpha`,
`beta`, `use_weather` — no extra keys, no omitted keys even for empty
strings — where `alpha` is 1.5, `beta` is 0.7, `use_weather` is false, and
`origin`/`destination` are the current input texts. -/
theorem c4_request_body_exact (origin dest : String) :
    requestJson origin dest = Json.obj (requestBody origin dest) ∧
    (requestBody origin dest).map Prod.fst
      = ["origin", "destination", "alpha", "beta", "use_weather"] ∧
    jLookup (requestBody origin dest) "origin" = some (Json.str origin) ∧
    jLookup (requestBody origin dest) "destination" = some (Json.str dest) ∧
    jLookup (requestBody origin dest) "alpha" = some (Json.num (1.5 : Rat)) ∧
    jLookup (requestBody origin dest) "beta" = some (Json.num (0.7 : Rat)) ∧
    jLookup (requestBody origin dest) "use_weather"
      = some (Json.bool false) := by
  refine ⟨rfl, rfl, ?_, ?_, ?_, ?_, ?_⟩ <;> rfl

/-- C7: on every request submission, the previously stored result and error
are cleared before the network call begins: whatever the prior state, the
Loading state holds no result and no error. -/
theorem c7_submission_clears (s : AppState) :
    (submitState s).result = none ∧ (submitState s).err = none ∧
    (submitState s).loading = true :=
  ⟨rfl, rfl, rfl⟩

/-- C8: the framing is a pure derivation — centered at the first coordinate
of the shortest route when a non-empty one exists, and at the fixed default
center (33.64, -117.84) when the route is empty or absent, always with
deltas 0.05. -/
theorem c8_region_centering (c : LatLng) (rest : List LatLng) :
    initialRegionFor (some (c :: rest))
      = { latitude := c.latitude, longitude := c.longitude,
          latitudeDelta := (0.05 : Rat), longitudeDelta := (0.05 : Rat) } ∧
    initialRegionFor (some [])
      = { latitude := (33.64 : Rat), longitude := (-117.84 : Rat),
          latitudeDelta := (0.05 : Rat), longitudeDelta := (0.05 : Rat) } ∧
    initialRegionFor none
      = { latitude := (33.64 : Rat), longitude := (-117.84 : Rat),
          latitudeDelta := (0.05 : Rat), longitudeDelta := (0.05 : Rat) } :=
  ⟨rfl, rfl, rfl⟩

/-- C10: every failure outcome stores a non-empty error message, and when
the underlying exception carries no message (or an empty one), the fixed
fallback text "Network error" is stored. -/
theorem c10_failure_message_nonempty :
    (∀ (o : FetchOutcome) (s0 : AppState) (m : String),
        (getRoute o s0).err = some m → m ≠ "") ∧
    (∀ s0 : AppState,
        (getRoute (.transportError none) s0).err = some "Network error") ∧
    (∀ s0 : AppState,
        (getRoute (.transportError (some "")) s0).err
          = some "Network error") := by
  refine ⟨?_, fun _ => rfl, fun _ => rfl⟩
  intro o s0 m h
  cases o with
  | transportError mm =>
    simp only [getRoute, resolve, submitState, Option.some.injEq] at h
    exact h ▸ messageOrDefault_ne_empty mm
  | response r =>
    simp only [getRoute, resolve, submitState] at h
    by_cases hok : r.ok
    · rw [if_pos hok] at h
      cases hp : r.parsed with
      | ok j => rw [hp] at h; simp at h
      | error msg =>
        rw [hp] at h
        simp only [Option.some.injEq] at h
        exact h ▸ messageOrDefault_ne_empty (some msg)
    · rw [if_neg hok] at h
      simp only [Option.some.injEq] at h
      exact h ▸ messageOrDefault_ne_empty (some (protocolMessage r))

/-- C10 witness: a transport failure with no message stores the non-empty
fallback text. -/
theorem c10_witness : ("Network error" : String) ≠ "" :=
  c10_failure_message_nonempty.1 (FetchOutcome.transportError none)
    initState "Network error" rfl

/-- The protocol message is never empty (it begins with the status digits
and contains the separator). -/
theorem protocolMessage_ne_empty (r : HttpResponse) :
    protocolMessage r ≠ "" := by
  intro hc
  have h2 := congrArg String.length hc
  simp only [protocolMessage, String.length_append] at h2
  have h3 : (" " : String).length = 1 := rfl
  have h4 : (" – " : String).length = 3 := rfl
  rw [h3, h4] at h2
  simp at h2

/-- C5: for every response with status outside 200–299, the run of
`getRoute` ends in Failure (error set, no result, not loading) and the
stored message contains the status code, the status text, and the raw
response body. -/
theorem c5_non2xx_failure (s0 : AppState) (r : HttpResponse)
    (h : ¬ (200 ≤ r.status ∧ r.status ≤ 299)) :
    (getRoute (.response r) s0).err = some (protocolMessage r) ∧
    (getRoute (.response r) s0).result = none ∧
    (getRoute (.response r) s0).loading = false ∧
    strContains (protocolMessage r) (toString r.status) ∧
    strContains (protocolMessage r) r.statusText ∧
    strContains (protocolMessage r) r.bodyText := by
  have hok : r.ok = false := by
    cases hb : r.ok with
    | false => rfl
    | true =>
      exfalso
      apply h
      simp only [HttpResponse.ok, Bool.and_eq_true, decide_eq_true_eq] at hb
      exact hb
  refine ⟨?_, ?_, ?_, ?_, ?_, ?_⟩
  · simp [getRoute, resolve, submitState, hok,
      messageOrDefault, protocolMessage_ne_empty r]
  · simp [getRoute, resolve, submitState, hok]
  · simp [getRoute, resolve, submitState, hok]
  · refine ⟨[], (" " : String).data ++ r.statusText.data ++
      (" – " : String).data ++ r.bodyText.data, ?_⟩
    simp [protocolMessage, String.data_append]
  · refine ⟨(toString r.status).data ++ (" " : String).data,
      (" – " : String).data ++ r.bodyText.data, ?_⟩
    simp [protocolMessage, String.data_append]
  · refine ⟨(toString r.status).data ++ (" " : String).data ++
      r.statusText.data ++ (" – " : String).data, [], ?_⟩
    simp [protocolMessage, String.data_append]

/-- C5 witness: the spec's §8 scenario — HTTP 500 with body
"internal error" ends in a Failure whose message contains "500",
the status text, and the body. -/
theorem c5_witness :
    (getRoute (.response resp500) initState).err
      = some (protocolMessage resp500) ∧
    (getRoute (.response resp500) initState).result = none ∧
    (getRoute (.response resp500) initState).loading = false ∧
    strContains (protocolMessage resp500) (toString resp500.status) ∧
    strContains (protocolMessage resp500) resp500.statusText ∧
    strContains (protocolMessage resp500) resp500.bodyText :=
  c5_non2xx_failure initState resp500 (by decide)

/-- C6: for every 2xx response whose body parses and contains all required
RouteResult fields, the run of `getRoute` ends in Success holding the parsed
value verbatim: the stored value's five field reads equal the decoded
result's fields exactly, with no transformation or partial merge, and no
prior error remains. -/
theorem c6_success_verbatim (s0 : AppState) (r : HttpResponse) (j : Json)
    (rr : RouteResult) (h1 : 200 ≤ r.status) (h2 : r.status ≤ 299)
    (hp : r.parsed = Except.ok j) (hd : decodeRouteResult j = some rr) :
    getRoute (.response r) s0
      = { result := some j, loading := false, err := none } ∧
    numField j "shortest_distance_m" = some rr.shortest_distance_m ∧
    numField j "safest_distance_m" = some rr.safest_distance_m ∧
    numField j "safest_score" = some rr.safest_score ∧
    routeField j "shortest_route" = some rr.shortest_route ∧
    routeField j "safest_route" = some rr.safest_route := by
  have hok : r.ok = true := by
    simp only [HttpResponse.ok, Bool.and_eq_true, decide_eq_true_eq]
    exact ⟨h1, h2⟩
  refine ⟨by simp [getRoute, resolve, submitState, hok, hp], ?_⟩
  unfold decodeRouteResult at hd
  split at hd
  · rename_i a b c d e ha hb hc hdd he
    injection hd with hrr
    subst hrr
    exact ⟨ha, hb, hc, hdd, he⟩
  · exact absurd hd (by simp)

/-- C6 witness: the spec's §6 sample body on a 200 response ends in Success
storing it verbatim. -/
theorem c6_witness :
    getRoute (.response resp200) initState
      = { result := some sampleResult, loading := false, err := none } ∧
    numField sampleResult "shortest_distance_m"
      = some sampleRR.shortest_distance_m ∧
    numField sampleResult "safest_distance_m"
      = some sampleRR.safest_distance_m ∧
    numField sampleResult "safest_score" = some sampleRR.safest_score ∧
    routeField sampleResult "shortest_route"
      = some sampleRR.shortest_route ∧
    routeField sampleResult "safest_route" = some sampleRR.safest_route :=
  c6_success_verbatim initState resp200 sampleResult sampleRR
    (by decide) (by decide) rfl rfl

/-- C1 counterexample: a 200 response whose body parses as the object with
no fields at all (so every required RouteResult field is missing) ends in
Success storing that object — result set, no error — not in Failure as the
claim states. -/
theorem c1_counterexample :
    decodeRouteResult (Json.obj []) = none ∧
    getRoute (.response respEmptyObj) initState
      = { result := some (Json.obj []), loading := false, err := none } :=
  ⟨rfl, rfl⟩

/-- C1 amended: for every 2xx response whose body parses as structured data
but is missing one or more required RouteResult fields, the run of
`getRoute` ends in Success storing the unvalidated parsed value verbatim
(no crash, but also no Failure): the code performs no field validation;
Failure occurs only when the body fails to parse at all. -/
theorem c1_amended_unvalidated_success (s0 : AppState) (r : HttpResponse)
    (j : Json) (h1 : 200 ≤ r.status) (h2 : r.status ≤ 299)
    (hp : r.parsed = Except.ok j) (_hmiss : decodeRouteResult j = none) :
    getRoute (.response r) s0
      = { result := some j, loading := false, err := none } := by
  have hok : r.ok = true := by
    simp only [HttpResponse.ok, Bool.and_eq_true, decide_eq_true_eq]
    exact ⟨h1, h2⟩
  simp [getRoute, resolve, submitState, hok, hp]

/-- C1 witness: the amended statement at the concrete missing-fields
response. -/
theorem c1_witness :
    getRoute (.response respEmptyObj) initState
      = { result := some (Json.obj []), loading := false, err := none } :=
  c1_amended_unvalidated_success initState respEmptyObj (Json.obj [])
    (by decide) (by decide) rfl rfl

/-- C2 counterexample: submission A is in flight, submission B is issued,
B resolves first with a transport failure ("connection refused"), then A
resolves with a valid 200 body. The claim requires the final state to
reflect B's Failure with A's outcome discarded; instead A's continuation
runs last and stores A's parsed result (alongside B's stale error), so A's
outcome is applied, not discarded. -/
theorem c2_counterexample :
    overlappedRun (.transportError (some "connection refused"))
        (.response resp200) initState
      = { result := some sampleResult, loading := false,
          err := some "connection refused" } :=
  rfl

/-- C2 amended: when overlapping submissions occur, the code implements
last-RESOLUTION-wins, not last-submission-wins: each call's continuation
writes its outcome to the shared state unconditionally in resolution order,
so when A resolves after B, A's outcome lands in the final state — a
successful A stores A's parsed result, a failed A stores A's message —
while B's writes to other fields may survive alongside. -/
theorem c2_amended_last_resolution_wins :
    (∀ (s0 : AppState) (oB : FetchOutcome) (rA : HttpResponse) (jA : Json),
        200 ≤ rA.status → rA.status ≤ 299 → rA.parsed = Except.ok jA →
        (overlappedRun oB (.response rA) s0).result = some jA ∧
        (overlappedRun oB (.response rA) s0).loading = false) ∧
    (∀ (s0 : AppState) (oB : FetchOutcome) (m : String), m ≠ "" →
        (overlappedRun oB (.transportError (some m)) s0).err = some m) := by
  constructor
  · intro s0 oB rA jA h1 h2 hp
    have hok : rA.ok = true := by
      simp only [HttpResponse.ok, Bool.and_eq_true, decide_eq_true_eq]
      exact ⟨h1, h2⟩
    constructor <;> simp [overlappedRun, resolve, hok, hp]
  · intro s0 oB m hm
    simp [overlappedRun, resolve, messageOrDefault, hm]

/-- C2 witness: the amended statement at a concrete overlap — B fails with
a transport error, A succeeds later, and A's result is stored. -/
theorem c2_witness :
    (overlappedRun (.transportError (some "connection refused"))
        (.response resp200) initState).result = some sampleResult ∧
    (overlappedRun (.transportError (some "connection refused"))
        (.response resp200) initState).loading = false :=
  c2_amended_last_resolution_wins.1 initState
    (.transportError (some "connection refused")) resp200 sampleResult
    (by decide) (by decide) rfl

/-- C3 evidence: the §7 defect condition. The body with an empty
`shortest_route` decodes as a structurally valid RouteResult; the render
still shows the success section (it does not treat the state as
Failure-equivalent), and the success view's origin and destination markers
evaluate `shortest_route[0]` and `shortest_route[length - 1]`, both
`undefined` (`none`) — the code hands undefined coordinates to the Marker
components instead of surfacing the condition. -/
theorem c3_code_eval :
    decodeRouteResult emptyRouteJson = some emptyRouteResult ∧
    showsSuccessSection
      { result := some emptyRouteJson, loading := false, err := none }
      = true ∧
    (renderSuccess emptyRouteResult).originMarker = none ∧
    (renderSuccess emptyRouteResult).destMarker = none ∧
    (renderSuccess emptyRouteResult).region
      = initialRegionFor (some []) :=
  ⟨rfl, rfl, rfl, rfl, rfl⟩

/-- Every state reachable from the initial state without overlapping
submissions — the trigger-disable respected, the unique in-flight call's
continuation atomic — is one of the four FetchState variants. -/
theorem reachable_isVariant (s : AppState) (h : ReachableNoOverlap s) :
    isVariant s := by
  induction h with
  | refl => exact Or.inl rfl
  | tail _ hstep ih =>
    cases hstep with
    | submit ht => exact Or.inr (Or.inl rfl)
    | settle o ht =>
      rename_i t _
      have hload : t = { result := none, loading := true, err := none } := by
        rcases ih with h1 | h1 | ⟨j, h1⟩ | ⟨m, h1⟩ <;> subst h1 <;>
          first
          | rfl
          | (exfalso; simp [AppState.loading] at ht)
      subst hload
      cases o with
      | transportError m =>
        exact Or.inr (Or.inr (Or.inr ⟨messageOrDefault m, rfl⟩))
      | response r =>
        by_cases hok : r.ok
        · cases hp : r.parsed with
          | ok j =>
            refine Or.inr (Or.inr (Or.inl ⟨j, ?_⟩))
            simp [resolve, hok, hp]
          | error m =>
            refine Or.inr (Or.inr (Or.inr ⟨messageOrDefault (some m), ?_⟩))
            simp [resolve, hok, hp]
        · refine Or.inr (Or.inr (Or.inr
            ⟨messageOrDefault (some (protocolMessage r)), ?_⟩))
          simp [resolve, hok]

/-- C9 counterexample: the code does not logically prevent overlapping
submissions, and under them the claimed invariant fails at a reachable
state. Trace: submit A, submit B while A is in flight, B's call fails with
a transport error, then A's 200 response resolves. The resulting state
holds a stored result together with a stored error — none of the four
variants, exactly the combination the claim says never occurs. -/
theorem c9_counterexample :
    Reachable ({ result := some sampleResult, loading := false,
                 err := some "connection refused" }, 0) ∧
    ¬ isVariant { result := some sampleResult, loading := false,
                  err := some "connection refused" } := by
  constructor
  · exact Relation.ReflTransGen.tail
      (Relation.ReflTransGen.tail
        (Relation.ReflTransGen.tail
          (Relation.ReflTransGen.single (Step.submit initState 0))
          (Step.submit (submitState initState) 1))
        (Step.settle (submitState (submitState initState)) 1
          (.transportError (some "connection refused"))))
      (Step.settle
        (resolve (.transportError (some "connection refused"))
          (submitState (submitState initState)))
        0 (.response resp200))
  · intro hv
    rcases hv with h1 | h1 | ⟨j, h1⟩ | ⟨m, h1⟩ <;> simp at h1

/-- C9 amended: at every state reachable without overlapping submissions
(submission only while not Loading, as §4.3 prescribes for the caller),
exactly one of the four variants Idle, Loading, Success(result),
Failure(message) holds — the loading flag never coexists with a stored
result or a stored error, and a stored result never coexists with a stored
error. When a submission is invoked while Loading anyway, the invariant can
fail (see the counterexample). -/
theorem c9_amended_no_overlap_exactly_one (s : AppState)
    (h : ReachableNoOverlap s) :
    isVariant s ∧
    ¬ (s.loading = true ∧ s.result ≠ none) ∧
    ¬ (s.loading = true ∧ s.err ≠ none) ∧
    ¬ (s.result ≠ none ∧ s.err ≠ none) := by
  have hv := reachable_isVariant s h
  refine ⟨hv, ?_, ?_, ?_⟩ <;>
    rcases hv with h1 | h1 | ⟨j, h1⟩ | ⟨m, h1⟩ <;> subst h1 <;> simp

/-- C9 witness: the state after one guarded submission and one
transport-failure resolution is reachable without overlap and satisfies the
mutual-exclusion invariant. -/
theorem c9_witness :
    isVariant (resolve (.transportError none) (submitState initState)) ∧
    ¬ ((resolve (.transportError none) (submitState initState)).loading
          = true ∧
       (resolve (.transportError none) (submitState initState)).result
          ≠ none) ∧
    ¬ ((resolve (.transportError none) (submitState initState)).loading
          = true ∧
       (resolve (.transportError none) (submitState initState)).err
          ≠ none) ∧
    ¬ ((resolve (.transportError none) (submitState initState)).result
          ≠ none ∧
       (resolve (.transportError none) (submitState initState)).err
          ≠ none) :=
  c9_amended_no_overlap_exactly_one _
    (Relation.ReflTransGen.tail
      (Relation.ReflTransGen.single (GuardedStep.submit initState rfl))
      (GuardedStep.settle (submitState initState) (.transportError none) rfl))
